import Mathlib

/-!
Verification of the `xcube-multistore` generation orchestrator.

This file gives a shallow embedding of the parts of the repository that the
checked properties are about:

* `src/xcube_multistore/utils.py` — `_safe_execute`, `_get_data_id`,
  `_remove_compressed_extension`;
* `src/xcube_multistore/visualization.py` — `GeneratorStatus`, `GeneratorState`
  and its partial-update rule;
* `src/xcube_multistore/config.py` — `MultiSourceConfig._get_preload_map`;
* `src/xcube_multistore/multistore.py` — `MultiSourceDataStore._preload_datasets`,
  `_generate_cubes`, the write-failure cleanup, and the point-to-bbox branch of
  `_open_single_dataset`.

External collaborators (xcube data stores, xarray datasets, the transform
library) are modelled abstractly: an output store is the set of data ids it
holds, an `xr.Dataset` is an opaque token, and the body of each pipeline stage
(the code that `_safe_execute` guards) is an oracle giving the outcome of the
underlying Python call — a normal return, a raised `Exception`, or a raised
`KeyboardInterrupt`.  The orchestrator's own control flow (the code under
verification) is translated line by line from the source.

The module `constants.py` is imported by the sources but is not part of them;
the definitions `NAME_WRITE_STORE`, `MAP_FORMAT_ID_FILE_EXT` and
`COMPRESSED_FORMATS` below are therefore modelled from the spec and are marked
as such in their doc comments.
-/

namespace MS

/-! ## Python string primitives

Lean core's `String.endsWith`/`String.replace` are not kernel-reducible, so the
Python string methods used by the sources are modelled structurally on the
character list of the string.  `pyStrIn needle hay` is Python's `needle in hay`
substring test, `pyEndsWith` is `str.endswith`, and `pyReplaceAll` is
`str.replace` (which in Python replaces every non-overlapping occurrence,
scanning left to right). -/

def pyStrIn (needle hay : String) : Bool :=
  decide (needle.data <:+: hay.data)

def pyEndsWith (s suffix : String) : Bool :=
  decide (suffix.data <:+ s.data)

def pyReplaceAllAux (pat rep : List Char) : Nat → List Char → List Char
  | 0, s => s
  | _ + 1, [] => []
  | fuel + 1, c :: cs =>
    if pat ≠ [] ∧ pat <+: (c :: cs) then
      rep ++ pyReplaceAllAux pat rep fuel ((c :: cs).drop pat.length)
    else
      c :: pyReplaceAllAux pat rep fuel cs

def pyReplaceAll (s pat rep : String) : String :=
  ⟨pyReplaceAllAux pat.data rep.data s.data.length s.data⟩

/-- Python's `repr` of an identifier string, as interpolated by `f"{x!r}"` in
the notification messages of `multistore.py` (identifiers contain no quotes to
escape). -/
def pyRepr (s : String) : String := "'" ++ s ++ "'"

/-! ## Constants (`constants.py` — not among the sources) -/

/-- Modelled from the spec: `constants.py` is missing from the sources.  Spec §3
and the glossary call the output store "the single designated store, identified
by a reserved name"; the literal `"storage"` appears for the same store at
`multistore.py` line 172 and in the test configurations. -/
def NAME_WRITE_STORE : String := "storage"

/-- Modelled from the spec: `constants.py` is missing from the sources.  Spec §6
says output artifact naming is `<artifact identifier>.<ext>` where `ext` is
`nc` for the netCDF-style format and the default archive extension (`zarr`)
otherwise.  The configuration schema (`config.py`, `SCHEMA_FORTMAT_ID`)
restricts `format_id` to `"netcdf"` and `"zarr"`, so the dictionary is total on
its domain. -/
def MAP_FORMAT_ID_FILE_EXT (format_id : String) : String :=
  if format_id == "netcdf" then "nc" else "zarr"

/-- Modelled from the spec: `constants.py` is missing from the sources.  Spec
§4.1 speaks of "known compressed-file suffixes"; the only suffix exercised by
the spec's examples and the tests is `zip`. -/
def COMPRESSED_FORMATS : List String := ["zip"]

/-! ## `utils.py` -/

/-- Translation of `_remove_compressed_extension` (`utils.py` lines 172-177),
parameterised by the `COMPRESSED_FORMATS` list it iterates over: the first
format the data id ends with (without a dot!) has every occurrence of
`"." ++ format` removed, and the loop breaks. -/
def remove_compressed_extension (formats : List String) (data_id : String) : String :=
  match formats with
  | [] => data_id
  | format_id :: rest =>
    if pyEndsWith data_id format_id then
      pyReplaceAll data_id ("." ++ format_id) ""
    else
      remove_compressed_extension rest data_id

/-- Configuration entry of one generated dataset, keeping the fields that
`_generate_cubes`, `_get_data_id` and `_get_preload_map` read: `identifier`,
the optional `format_id`, and the source reference (either a single `data_id`
or a `variables` list — the schema's `one_of` invariant).  Of a nested variable
entry only its `data_id` is read by the modelled code. -/
structure VariableConfig where
  data_id : String
deriving DecidableEq

inductive DatasetSource where
  | single (data_id : String)
  | multi (vars : List VariableConfig)
deriving DecidableEq

structure DatasetConfig where
  identifier : String
  format_id : Option String := none
  source : DatasetSource := .single ""
deriving DecidableEq

/-- Translation of `_get_data_id` (`utils.py` lines 180-186):
`config.get("format_id", "zarr")`, then `.nc` for `"netcdf"` and `.zarr` for
everything else. -/
def _get_data_id (config : DatasetConfig) : String :=
  let format_id := config.format_id.getD "zarr"
  if format_id == "netcdf" then
    config.identifier ++ ".nc"
  else
    config.identifier ++ ".zarr"

/-- Exception object raised (and possibly captured) by Python code. -/
structure Exc where
  msg : String
deriving DecidableEq

/-- Outcome of one unguarded Python call: a normal return, a raised
`Exception`, or a raised `KeyboardInterrupt` (which is a `BaseException` but
not an `Exception`). -/
inductive PyOutcome (α : Type) where
  | ok (a : α)
  | exc (e : Exc)
  | interrupt
deriving DecidableEq

/-- The fixed string returned by `_safe_execute` when a `KeyboardInterrupt` is
caught (`utils.py` line 198). -/
def keyboardInterruptMsg : String := "Keyboard Interrupt caught! Exiting gracefully."

/-- Value returned by a function wrapped with the `_safe_execute` decorator: the
wrapped function's return value (an `xr.Dataset` for the three pipeline
stages), the exception object itself (`except Exception as e: return e`), or
the fixed interrupt string (`except KeyboardInterrupt: return "..."` —
`KeyboardInterrupt` does not extend `Exception`, so the second handler catches
it). -/
inductive SafeResult (α : Type) where
  | dataset (a : α)
  | excValue (e : Exc)
  | interruptMsg
deriving DecidableEq

/-- Translation of the `_safe_execute` wrapper (`utils.py` lines 189-202),
applied to the outcome of the wrapped call. -/
def safe_execute {α : Type} : PyOutcome α → SafeResult α
  | .ok a => .dataset a
  | .exc e => .excValue e
  | .interrupt => .interruptMsg

/-! ## `visualization.py` — `GeneratorStatus` and `GeneratorState` -/

inductive GeneratorStatus where
  | waiting
  | started
  | stopped
  | failed
deriving DecidableEq

/-- Payload stored in a `GeneratorState.exception` field: `_notify_error`
receives either a captured exception object or the interrupt string. -/
inductive ExcPayload where
  | exc (e : Exc)
  | str (s : String)
deriving DecidableEq

/-- Translation of the `GeneratorState` record (`visualization.py` lines
45-59): `identifier` is required, the other three fields default to `None`. -/
structure GeneratorState where
  identifier : String
  status : Option GeneratorStatus := none
  message : Option String := none
  exception : Option ExcPayload := none
deriving DecidableEq

/-- Translation of `GeneratorState.update` (`visualization.py` lines 61-74):
when the event's identifier matches, each of `status`, `message` and
`exception` is overwritten exactly when the event carries a non-`None` value
for it; the `identifier` field is never assigned. -/
def GeneratorState.update (self event : GeneratorState) : GeneratorState :=
  if self.identifier = event.identifier then
    { identifier := self.identifier
      status := match event.status with
        | some s => some s
        | none => self.status
      message := match event.message with
        | some m => some m
        | none => self.message
      exception := match event.exception with
        | some e => some e
        | none => self.exception }
  else
    self

/-! ## `multistore.py` — the preload phase -/

/-- One entry of the `preload_datasets` configuration section: the preload
store's name, the archive data ids, and the optional `preload_params` dict
(absent modelled as the empty dict, matching
`config_preload.get("preload_params", {})`).  Only boolean-valued parameters
are modelled, since `"silent"` is the only key the orchestrator inspects; all
entries are passed through to the store's preload call unchanged. -/
structure PreloadConfig where
  store : String
  data_ids : List String
  preload_params : List (String × Bool) := []
deriving DecidableEq

/-- Observable behaviour of `_preload_datasets` for one `config_preload` entry
(`multistore.py` lines 121-167): the partition of the archive ids into
`data_ids_preloaded` (reported "Already preloaded.") and `data_ids` (still to
preload), and the argument list of the `store.preload_data` call when one is
made. -/
structure PreloadResult where
  data_ids_preloaded : List String
  data_ids : List String
  preloadCall : Option (List String × List (String × Bool))
deriving DecidableEq

/-- Translation of one iteration of `_preload_datasets` (`multistore.py` lines
121-167).  `preload_map` is `self.config.preload_map` read with `defaultdict`
semantics, `cacheHas` is `store.cache_store.has_data` of this entry's store,
`force` is `general["force_preload"]` and `visualize` is
`general["visualize"]`.  The two filters replay the append loop of lines
130-139; the visualization/logging block (lines 141-161) emits the
`data_ids_preloaded` list unchanged and is otherwise presentational.  Lines
163-167: when `data_ids` is non-empty, `"silent"` is defaulted to the
`visualize` flag if absent, and `store.preload_data(*data_ids,
**preload_params)` is invoked once. -/
def _preload_one (force visualize : Bool) (preload_map : String → List String)
    (cacheHas : String → Bool) (config_preload : PreloadConfig) : PreloadResult :=
  let alreadyLoaded := fun data_id => (preload_map data_id).all cacheHas
  let data_ids_preloaded :=
    if force then [] else config_preload.data_ids.filter alreadyLoaded
  let data_ids :=
    if force then config_preload.data_ids
    else config_preload.data_ids.filter (fun data_id => !(alreadyLoaded data_id))
  if data_ids.isEmpty then
    { data_ids_preloaded := data_ids_preloaded, data_ids := data_ids, preloadCall := none }
  else
    let preload_params := config_preload.preload_params
    let preload_params :=
      if (preload_params.lookup "silent").isNone then
        preload_params ++ [("silent", visualize)]
      else
        preload_params
    { data_ids_preloaded := data_ids_preloaded, data_ids := data_ids,
      preloadCall := some (data_ids, preload_params) }

/-- Translation of the `_preload_datasets` loop (`multistore.py` lines
120-167): each `config_preload` entry is processed independently with the
store resolved from its `store` field. -/
def _preload_datasets (force visualize : Bool) (preload_map : String → List String)
    (cacheHas : String → String → Bool) (preload_datasets : List PreloadConfig) :
    List PreloadResult :=
  preload_datasets.map
    (fun config_preload =>
      _preload_one force visualize preload_map (cacheHas config_preload.store) config_preload)

/-! ## `config.py` — `_get_preload_map` -/

/-- Association list with `defaultdict(list)` semantics: the preload index. -/
def PreloadMap := List (String × List String)

/-- Read access `preload_map[key]` of the `defaultdict`: a missing key reads as
the empty list. -/
def mapGet (m : PreloadMap) (key : String) : List String :=
  (m.lookup key).getD []

/-- Write access `preload_map[key].append(v)` of the `defaultdict`: append to
the entry, creating it if missing. -/
def mapAppend : PreloadMap → String → String → PreloadMap
  | [], key, v => [(key, [v])]
  | (k, vs) :: rest, key, v =>
    if k == key then (k, vs ++ [v]) :: rest else (k, vs) :: mapAppend rest key v

/-- Translation of `MultiSourceConfig._get_preload_map` (`config.py` lines
319-334): for every preload entry and every archive `data_id` in it, strip the
compressed extension, then append to `preload_map[data_id]` the `data_id` of
every declared dataset source (including sources nested in a `variables` list)
that contains the stripped stem as a substring, in declaration order. -/
def _get_preload_map (formats : List String) (preload_datasets : List PreloadConfig)
    (datasets : List DatasetConfig) : PreloadMap :=
  preload_datasets.foldl
    (fun m config_preload =>
      config_preload.data_ids.foldl
        (fun m data_id =>
          let data_id_mod := remove_compressed_extension formats data_id
          datasets.foldl
            (fun m config_ds =>
              match config_ds.source with
              | .multi vars =>
                vars.foldl
                  (fun m config_da =>
                    if pyStrIn data_id_mod config_da.data_id then
                      mapAppend m data_id config_da.data_id
                    else m)
                  m
              | .single ds_data_id =>
                if pyStrIn data_id_mod ds_data_id then
                  mapAppend m data_id ds_data_id
                else m)
            m)
        m)
    []

/-! ## `multistore.py` — the per-artifact generation pipeline

An `xr.Dataset` is opaque to the orchestrator's control flow; it is modelled as
a token.  The bodies of `_open_dataset`, `_process_dataset` and
`_write_dataset` (everything inside the `_safe_execute` wrapper: store opens,
merging, resampling, the actual write) call external collaborators, so their
outcome for a given artifact is an oracle `StageOracle`; what the file verifies
is the orchestrator loop around them, translated from `_generate_cubes`
(`multistore.py` lines 169-227). -/

abbrev Dataset := Nat

/-- Outcomes of the unguarded stage bodies for one artifact, plus the behaviour
of the external store calls in the write-failure cleanup: `writeResidue` says
whether the failed `write_data` attempt left (partial) data at the output id
(so that `store.has_data` reports `True` during cleanup), and `deleteRes` is
`none` when `store.delete_data` returns and `some e` when it raises `e` — spec
§6: `delete(dataId) -> raises on failure`. -/
structure StageOracle where
  openRes : PyOutcome Dataset
  processRes : Dataset → PyOutcome Dataset
  writeRes : Dataset → PyOutcome Dataset
  writeResidue : Bool
  deleteRes : Option Exc

/-- External calls made by the loop, recorded so that "stage X ran for artifact
Y" is observable. -/
inductive StageCall where
  | openStage (identifier : String)
  | processStage (identifier : String)
  | writeStage (identifier : String)
  | deleteData (data_id : String)
deriving DecidableEq

/-- Observable state threaded through `_generate_cubes`: the tracker records
(`self._states`, modelled as a total function — `GeneratorState.update` is the
identity on records whose identifier does not match an event), the output
store's content (the set of data ids for which `has_data` is `True`), the
events passed to `self._notify` in order, and the external calls made. -/
structure RunState where
  states : String → GeneratorState
  store : List String
  events : List GeneratorState
  calls : List StageCall

def hasData (store : List String) (data_id : String) : Bool :=
  decide (data_id ∈ store)

def writeData (store : List String) (data_id : String) : List String :=
  data_id :: store

def deleteData (store : List String) (data_id : String) : List String :=
  store.filter (fun x => decide (x ≠ data_id))

/-- Translation of `_notify` (`multistore.py` lines 100-109): update the state
record for the event's identifier and report the event (display/log). -/
def notify (st : RunState) (event : GeneratorState) : RunState :=
  { st with
    states := fun id => (st.states id).update event
    events := st.events ++ [event] }

/-- The events `_generate_cubes` emits, one definition per `GeneratorState(...)`
literal in `multistore.py`. -/
def skipEvent (identifier : String) : GeneratorState :=
  { identifier := identifier, status := some .stopped
    message := some ("Dataset " ++ pyRepr identifier ++ " already generated.") }

def startEvent (identifier : String) : GeneratorState :=
  { identifier := identifier, status := some .started
    message := some ("Open dataset " ++ pyRepr identifier ++ ".") }

def processMsgEvent (identifier : String) : GeneratorState :=
  { identifier := identifier
    message := some ("Processing dataset " ++ pyRepr identifier ++ ".") }

def writeMsgEvent (identifier : String) : GeneratorState :=
  { identifier := identifier
    message := some ("Write dataset " ++ pyRepr identifier ++ ".") }

def finishEvent (identifier : String) : GeneratorState :=
  { identifier := identifier, status := some .stopped
    message := some ("Dataset " ++ pyRepr identifier ++ " finished.") }

/-- Translation of `_notify_error` (`multistore.py` lines 111-118). -/
def failEvent (identifier : String) (p : ExcPayload) : GeneratorState :=
  { identifier := identifier, status := some .failed, exception := some p }

def notifyError (st : RunState) (identifier : String) (p : ExcPayload) : RunState :=
  notify st (failEvent identifier p)

/-- Result of running (part of) `_generate_cubes`: either it returned, or an
exception `e` escaped it (the state carries the side effects up to that
point). -/
inductive RunOutcome where
  | ok (st : RunState)
  | raised (e : Exc) (st : RunState)

def RunOutcome.state : RunOutcome → RunState
  | .ok st => st
  | .raised _ st => st

def RunOutcome.isOk : RunOutcome → Bool
  | .ok _ => true
  | .raised _ _ => false

def RunOutcome.raisedExc : RunOutcome → Option Exc
  | .ok _ => none
  | .raised e _ => some e

/-- The output data id used on the write path, `multistore.py` lines 221-224
and 341-344: `f"{identifier}.{MAP_FORMAT_ID_FILE_EXT[format_id]}"` with
`format_id = config.get("format_id", "zarr")`. -/
def write_data_id (config : DatasetConfig) : String :=
  config.identifier ++ "." ++ MAP_FORMAT_ID_FILE_EXT (config.format_id.getD "zarr")

/-- Translation of the write-failure branch of `_generate_cubes`
(`multistore.py` lines 219-226): recompute the output data id, then
`store.has_data(data_id) and store.delete_data(data_id)` — the delete call is
not guarded, so an exception it raises escapes `_generate_cubes` and the
`_notify_error` call on line 226 is never reached — and finally report the
failure with the non-dataset stage result as payload. -/
def writeFailed (st : RunState) (config : DatasetConfig) (orc : StageOracle)
    (p : ExcPayload) : RunOutcome :=
  let data_id := write_data_id config
  let store1 := if orc.writeResidue then writeData st.store data_id else st.store
  if hasData store1 data_id then
    let st1 := { st with store := store1, calls := st.calls ++ [StageCall.deleteData data_id] }
    match orc.deleteRes with
    | some e => .raised e st1
    | none => .ok (notifyError { st1 with store := deleteData st1.store data_id }
        config.identifier p)
  else
    .ok (notifyError { st with store := store1 } config.identifier p)

/-- Translation of one iteration of the `_generate_cubes` loop (`multistore.py`
lines 169-227) for the artifact `config` with stage oracle `orc`:
skip check against the output store (lines 170-180), `started` event, open
stage, `Processing` event, process stage, `Write` event, write stage, then
either the `finished` event or the cleanup-and-fail branch; every non-dataset
stage result goes to `_notify_error` and ends the iteration (`continue`). -/
def generateOne (st : RunState) (config : DatasetConfig) (orc : StageOracle) : RunOutcome :=
  let data_id := _get_data_id config
  if hasData st.store data_id then
    .ok (notify st (skipEvent config.identifier))
  else
    let st1 := notify st (startEvent config.identifier)
    let st1 := { st1 with calls := st1.calls ++ [StageCall.openStage config.identifier] }
    match safe_execute orc.openRes with
    | .excValue e => .ok (notifyError st1 config.identifier (.exc e))
    | .interruptMsg => .ok (notifyError st1 config.identifier (.str keyboardInterruptMsg))
    | .dataset ds =>
      let st2 := notify st1 (processMsgEvent config.identifier)
      let st2 := { st2 with calls := st2.calls ++ [StageCall.processStage config.identifier] }
      match safe_execute (orc.processRes ds) with
      | .excValue e => .ok (notifyError st2 config.identifier (.exc e))
      | .interruptMsg => .ok (notifyError st2 config.identifier (.str keyboardInterruptMsg))
      | .dataset ds2 =>
        let st3 := notify st2 (writeMsgEvent config.identifier)
        let st3 := { st3 with calls := st3.calls ++ [StageCall.writeStage config.identifier] }
        match safe_execute (orc.writeRes ds2) with
        | .dataset _ =>
          let st4 := { st3 with store := writeData st3.store (write_data_id config) }
          .ok (notify st4 (finishEvent config.identifier))
        | .excValue e => writeFailed st3 config orc (.exc e)
        | .interruptMsg => writeFailed st3 config orc (.str keyboardInterruptMsg)

/-- Translation of the `_generate_cubes` loop (`multistore.py` lines 169-227)
over the declared artifacts in declaration order, each with its stage oracle.
An exception escaping one iteration (the unguarded delete) aborts the loop. -/
def _generate_cubes (st : RunState) : List (DatasetConfig × StageOracle) → RunOutcome
  | [] => .ok st
  | (config, orc) :: rest =>
    match generateOne st config orc with
    | .ok st' => _generate_cubes st' rest
    | .raised e st' => .raised e st'

/-- Initial run state: every tracker record starts in `waiting`
(`multistore.py` lines 73-78), no events or calls yet, output store content
`σ`. -/
def initRun (σ : List String) : RunState :=
  { states := fun id => { identifier := id, status := some .waiting }
    store := σ
    events := []
    calls := [] }

/-! ## `multistore.py` — the point-to-bbox branch of `_open_single_dataset` -/

/-- The parts of the open-parameters schema that the guard of the point
translation reads: whether `"bbox"` and `"spatial_res"` are among
`schema.properties`. -/
structure OpenSchema where
  hasBbox : Bool
  hasSpatialRes : Bool
deriving DecidableEq

/-- What the point-translation prologue does to the open parameters before the
store's `open_data` call: nothing, assignment of a bbox, or an exception
escaping `_open_single_dataset` (captured by the `_safe_execute` wrapper of its
caller `_open_dataset`). -/
inductive BboxOutcome where
  | noTranslation
  | bbox (w s e n : Int)
  | raisedTypeError
deriving DecidableEq

/-- Translation of `_open_single_dataset`, lines 255-273 of `multistore.py`:
`lat, lon = open_params.pop("point", [np.nan, np.nan])`, then the guard
`~np.isnan(lat) and ~np.isnan(lon) and "bbox" in schema.properties and
["spatial_res"] in open_params and "spatial_res" in schema.properties`.
The fourth conjunct tests the *list* `["spatial_res"]` for membership in the
`open_params` dict; a list is unhashable, so in Python this raises
`TypeError: unhashable type: 'list'` whenever it is evaluated — that is,
whenever a point was supplied and the schema accepts `bbox`.  The bbox
assignment of lines 267-273 (whose dead value would be
`[lon - 2*res, lat - 2*res, lon + 2*res, lat + 2*res]`) is unreachable;
coordinates are modelled as integers since no arithmetic is ever performed. -/
def pointTranslation (schema : OpenSchema) (point : Option (Int × Int)) : BboxOutcome :=
  match point with
  | none => .noTranslation
  | some _ =>
    if schema.hasBbox then
      .raisedTypeError
    else
      .noTranslation

/-! ## Observables and statement helpers -/

/-- The sub-sequence of notified events concerning one artifact. -/
def eventsFor (identifier : String) (events : List GeneratorState) : List GeneratorState :=
  events.filter (fun e => decide (e.identifier = identifier))

/-- The status updates carried by a sequence of events (events with
`status = None`, such as the `Processing`/`Write` progress messages, carry no
status update). -/
def statusesOf (events : List GeneratorState) : List GeneratorStatus :=
  events.filterMap (fun e => e.status)

/-- Folding a sequence of partial-update events into a tracker record. -/
def applyEvents (g : GeneratorState) (events : List GeneratorState) : GeneratorState :=
  events.foldl GeneratorState.update g

def withCall (st : RunState) (c : StageCall) : RunState :=
  { st with calls := st.calls ++ [c] }

/-- The possible event blocks one `_generate_cubes` iteration emits for its
artifact when it completes without an exception escaping: the skip block, a
failure after the open, process or write stage, or full success. -/
def shapeOk (identifier : String) (E : List GeneratorState) : Prop :=
  E = [skipEvent identifier]
  ∨ (∃ p, E = [startEvent identifier, failEvent identifier p])
  ∨ (∃ p, E = [startEvent identifier, processMsgEvent identifier, failEvent identifier p])
  ∨ (∃ p, E = [startEvent identifier, processMsgEvent identifier, writeMsgEvent identifier,
      failEvent identifier p])
  ∨ E = [startEvent identifier, processMsgEvent identifier, writeMsgEvent identifier,
      finishEvent identifier]

/-- Decomposition of a run's event log into per-artifact blocks, in declaration
order. -/
inductive BlocksOf : List (DatasetConfig × StageOracle) → List GeneratorState → Prop
  | nil : BlocksOf [] []
  | cons {p : DatasetConfig × StageOracle} {rest E tail} :
      shapeOk p.1.identifier E → BlocksOf rest tail → BlocksOf (p :: rest) (E ++ tail)

/-- Some stage body of the artifact raises the `Exception` `e`, and when the
failing stage is the write, the cleanup delete returns normally. -/
def failsAtSomeStage (orc : StageOracle) (e : Exc) : Prop :=
  orc.openRes = .exc e
  ∨ (∃ d, orc.openRes = .ok d ∧ orc.processRes d = .exc e)
  ∨ (∃ d d2, orc.openRes = .ok d ∧ orc.processRes d = .ok d2 ∧ orc.writeRes d2 = .exc e
      ∧ orc.deleteRes = none)

/-- Some stage body of the artifact raises `KeyboardInterrupt`, and when the
interrupted stage is the write, the cleanup delete returns normally. -/
def interruptedAtSomeStage (orc : StageOracle) : Prop :=
  orc.openRes = .interrupt
  ∨ (∃ d, orc.openRes = .ok d ∧ orc.processRes d = .interrupt)
  ∨ (∃ d d2, orc.openRes = .ok d ∧ orc.processRes d = .ok d2 ∧ orc.writeRes d2 = .interrupt
      ∧ orc.deleteRes = none)

/-- All three stage bodies of the artifact return normally. -/
def allStagesSucceed (orc : StageOracle) : Prop :=
  (∃ d, orc.openRes = .ok d)
  ∧ (∀ d, ∃ d2, orc.processRes d = .ok d2)
  ∧ (∀ d, ∃ d2, orc.writeRes d = .ok d2)

/-- No source `data_id` of the dataset declaration (single, or nested in its
`variables` list) contains `stem` as a substring. -/
def stemUnmatched (stem : String) (config_ds : DatasetConfig) : Bool :=
  match config_ds.source with
  | .single data_id => !(pyStrIn stem data_id)
  | .multi vars => vars.all (fun v => !(pyStrIn stem v.data_id))

/-- Run state after the `started` event and the open-stage call of an
artifact. -/
def afterOpen (st : RunState) (identifier : String) : RunState :=
  withCall (notify st (startEvent identifier)) (.openStage identifier)

/-- Run state after the `Processing` event and the process-stage call. -/
def afterProcess (st : RunState) (identifier : String) : RunState :=
  withCall (notify (afterOpen st identifier) (processMsgEvent identifier)) (.processStage identifier)

/-- Run state after the `Write` event and the write-stage call. -/
def afterWrite (st : RunState) (identifier : String) : RunState :=
  withCall (notify (afterProcess st identifier) (writeMsgEvent identifier)) (.writeStage identifier)

/-! ## Concrete inputs used by the witnesses and counterexamples -/

def excOpen : Exc := ⟨"open failed"⟩

def excWrite : Exc := ⟨"write failed"⟩

def excDelete : Exc := ⟨"delete failed"⟩

/-- Oracle of an artifact whose three stages all succeed. -/
def okOracle : StageOracle :=
  { openRes := .ok 0, processRes := fun _ => .ok 0, writeRes := fun _ => .ok 0
    writeResidue := false, deleteRes := none }

/-- Oracle of an artifact whose open stage raises an `Exception`. -/
def openFailOracle : StageOracle :=
  { openRes := .exc excOpen, processRes := fun _ => .ok 0, writeRes := fun _ => .ok 0
    writeResidue := false, deleteRes := none }

/-- Oracle of an artifact whose open stage raises `KeyboardInterrupt`. -/
def openInterruptOracle : StageOracle :=
  { openRes := .interrupt, processRes := fun _ => .ok 0, writeRes := fun _ => .ok 0
    writeResidue := false, deleteRes := none }

/-- Oracle of an artifact whose write stage raises, leaving partial output
behind, and whose cleanup delete succeeds. -/
def writeFailOracle : StageOracle :=
  { openRes := .ok 0, processRes := fun _ => .ok 0, writeRes := fun _ => .exc excWrite
    writeResidue := true, deleteRes := none }

/-- Oracle of an artifact whose write stage raises, leaving partial output
behind, and whose cleanup delete raises as well. -/
def writeAndDeleteFailOracle : StageOracle :=
  { openRes := .ok 0, processRes := fun _ => .ok 0, writeRes := fun _ => .exc excWrite
    writeResidue := true, deleteRes := some excDelete }

def cfgA : DatasetConfig := { identifier := "ds1", source := .single "src1.zarr" }

def cfgB : DatasetConfig := { identifier := "ds2", source := .single "src2.zarr" }

/-- A preload entry with one archive id and no explicit `preload_params`. -/
def cpEx : PreloadConfig := { store := "src", data_ids := ["arch.zip"] }

/-- A preload index mapping the example archive to one extracted id. -/
def pmEx : String → List String := fun k => if k == "arch.zip" then ["arch/data.zarr"] else []

/-- A cache-presence check that holds nothing. -/
def chNone : String → Bool := fun _ => false

/-- A cache-presence check that holds everything. -/
def chAll : String → Bool := fun _ => true

/-- Declared datasets none of whose source ids contain the stem `"arch"`. -/
def datasetsEx : List DatasetConfig :=
  [{ identifier := "d1", source := .single "other.zarr" },
   { identifier := "d2", source := .multi [⟨"nested.zarr"⟩] }]

/-- A one-artifact declaration list whose stages all succeed. -/
def c8cfgs : List (DatasetConfig × StageOracle) := [(cfgA, okOracle)]

/-- A tracker record and a matching partial-update event. -/
def gsRec : GeneratorState :=
  { identifier := "ds1", status := some .waiting, message := some "m0" }

def gsEvt : GeneratorState :=
  { identifier := "ds1", status := some .started }

/-- Concrete run where the first artifact's write fails and the cleanup delete
raises, with a second artifact declared after it. -/
def c1run : RunOutcome :=
  _generate_cubes (initRun []) [(cfgA, writeAndDeleteFailOracle), (cfgB, okOracle)]

/-- Concrete run where the first artifact's open stage is interrupted by
`KeyboardInterrupt`, with a second artifact declared after it. -/
def c3run : RunOutcome :=
  _generate_cubes (initRun []) [(cfgA, openInterruptOracle), (cfgB, okOracle)]

/-- Concrete iteration where the artifact's write fails leaving partial output
and the cleanup delete raises. -/
def c4run : RunOutcome :=
  generateOne (initRun []) cfgA writeAndDeleteFailOracle

/-! ## Basic lemmas -/

@[simp] theorem notify_states (st : RunState) (e : GeneratorState) (id : String) :
    (notify st e).states id = (st.states id).update e := rfl

@[simp] theorem notify_store (st : RunState) (e : GeneratorState) :
    (notify st e).store = st.store := rfl

@[simp] theorem notify_events (st : RunState) (e : GeneratorState) :
    (notify st e).events = st.events ++ [e] := rfl

@[simp] theorem notify_calls (st : RunState) (e : GeneratorState) :
    (notify st e).calls = st.calls := rfl

@[simp] theorem withCall_states (st : RunState) (c : StageCall) (id : String) :
    (withCall st c).states id = st.states id := rfl

@[simp] theorem withCall_store (st : RunState) (c : StageCall) :
    (withCall st c).store = st.store := rfl

@[simp] theorem withCall_events (st : RunState) (c : StageCall) :
    (withCall st c).events = st.events := rfl

@[simp] theorem withCall_calls (st : RunState) (c : StageCall) :
    (withCall st c).calls = st.calls ++ [c] := rfl

@[simp] theorem skipEvent_identifier (id : String) : (skipEvent id).identifier = id := rfl

@[simp] theorem startEvent_identifier (id : String) : (startEvent id).identifier = id := rfl

@[simp] theorem processMsgEvent_identifier (id : String) :
    (processMsgEvent id).identifier = id := rfl

@[simp] theorem writeMsgEvent_identifier (id : String) :
    (writeMsgEvent id).identifier = id := rfl

@[simp] theorem finishEvent_identifier (id : String) : (finishEvent id).identifier = id := rfl

@[simp] theorem failEvent_identifier (id : String) (p : ExcPayload) :
    (failEvent id p).identifier = id := rfl

theorem update_identifier (s e : GeneratorState) : (s.update e).identifier = s.identifier := by
  unfold GeneratorState.update
  split <;> rfl

theorem update_of_ne (s e : GeneratorState) (h : s.identifier ≠ e.identifier) :
    s.update e = s := by
  unfold GeneratorState.update
  exact if_neg h

theorem hasData_false_not_mem {σ : List String} {id : String} (h : hasData σ id = false) :
    id ∉ σ := by
  simpa [hasData] using h

theorem deleteData_writeData {σ : List String} {id : String} (h : id ∉ σ) :
    deleteData (writeData σ id) id = σ := by
  unfold deleteData writeData
  rw [List.filter_cons, if_neg (by simp)]
  exact List.filter_eq_self.mpr (fun x hx => decide_eq_true (fun he => h (he ▸ hx)))

theorem write_data_id_eq (config : DatasetConfig) :
    write_data_id config = _get_data_id config := by
  unfold write_data_id _get_data_id MAP_FORMAT_ID_FILE_EXT
  cases h : (config.format_id.getD "zarr") == "netcdf" <;>
    simp [h, String.append_assoc]

/-! ## C9 — the partial-update rule of the state tracker -/

/-- C9: for every state record and every update event whose identifier matches
the record, `GeneratorState.update` overwrites `status` exactly when the event
supplies one (a non-`None` value, i.e. `some _`), likewise `message` and
`exception`; a field the event does not supply keeps its previous value, and
the `identifier` field is never changed. -/
theorem c9_update_frame (s e : GeneratorState) (h : s.identifier = e.identifier) :
    (s.update e).identifier = s.identifier
    ∧ (s.update e).status = (match e.status with | some v => some v | none => s.status)
    ∧ (s.update e).message = (match e.message with | some v => some v | none => s.message)
    ∧ (s.update e).exception =
        (match e.exception with | some v => some v | none => s.exception) := by
  unfold GeneratorState.update
  rw [if_pos h]
  exact ⟨rfl, rfl, rfl, rfl⟩

theorem c9_update_frame_witness :
    gsRec.identifier = gsEvt.identifier
    ∧ ((gsRec.update gsEvt).identifier = gsRec.identifier
       ∧ (gsRec.update gsEvt).status =
           (match gsEvt.status with | some v => some v | none => gsRec.status)
       ∧ (gsRec.update gsEvt).message =
           (match gsEvt.message with | some v => some v | none => gsRec.message)
       ∧ (gsRec.update gsEvt).exception =
           (match gsEvt.exception with | some v => some v | none => gsRec.exception)) :=
  ⟨rfl, c9_update_frame gsRec gsEvt rfl⟩

/-! ## Preload-phase lemmas -/

theorem preload_one_preloaded (force visualize : Bool) (pm : String → List String)
    (ch : String → Bool) (cp : PreloadConfig) :
    (_preload_one force visualize pm ch cp).data_ids_preloaded
      = (if force then [] else cp.data_ids.filter (fun a => (pm a).all ch)) := by
  unfold _preload_one
  dsimp only
  split_ifs <;> rfl

theorem preload_one_data_ids (force visualize : Bool) (pm : String → List String)
    (ch : String → Bool) (cp : PreloadConfig) :
    (_preload_one force visualize pm ch cp).data_ids
      = (if force then cp.data_ids
         else cp.data_ids.filter (fun a => !((pm a).all ch))) := by
  unfold _preload_one
  dsimp only
  split_ifs <;> rfl

theorem preload_one_call (force visualize : Bool) (pm : String → List String)
    (ch : String → Bool) (cp : PreloadConfig) :
    (_preload_one force visualize pm ch cp).preloadCall
      = (if (_preload_one force visualize pm ch cp).data_ids.isEmpty then none
         else some ((_preload_one force visualize pm ch cp).data_ids,
           if (cp.preload_params.lookup "silent").isNone then
             cp.preload_params ++ [("silent", visualize)]
           else cp.preload_params)) := by
  rw [preload_one_data_ids]
  unfold _preload_one
  dsimp only
  split_ifs <;> rfl

/-! ## C5 — the preload partition -/

/-- C5: for every preload entry, an archive id is classified already
materialized (`data_ids_preloaded`) iff every extracted data id the preload
index maps it to is present in the source store's cache; the complementary ids
form the to-preload set; the store's preload operation is invoked exactly when
that set is non-empty and receives exactly that set; and under the
force-preload option the already-materialized set is empty and every archive id
is passed on. -/
theorem c5_preload_partition (force visualize : Bool) (pm : String → List String)
    (ch : String → Bool) (cp : PreloadConfig) :
    (force = false → ∀ a,
      (a ∈ (_preload_one force visualize pm ch cp).data_ids_preloaded
        ↔ a ∈ cp.data_ids ∧ (pm a).all ch = true))
    ∧ (force = false → ∀ a,
      (a ∈ (_preload_one force visualize pm ch cp).data_ids
        ↔ a ∈ cp.data_ids ∧ ¬ ((pm a).all ch = true)))
    ∧ ((_preload_one force visualize pm ch cp).preloadCall = none
        ↔ (_preload_one force visualize pm ch cp).data_ids = [])
    ∧ (∀ ids params, (_preload_one force visualize pm ch cp).preloadCall = some (ids, params)
        → ids = (_preload_one force visualize pm ch cp).data_ids)
    ∧ (force = true → (_preload_one force visualize pm ch cp).data_ids_preloaded = []
        ∧ (_preload_one force visualize pm ch cp).data_ids = cp.data_ids) := by
  refine ⟨?_, ?_, ?_, ?_, ?_⟩
  · intro hf a
    rw [preload_one_preloaded, hf]
    simp [List.mem_filter]
  · intro hf a
    rw [preload_one_data_ids, hf]
    simp [List.mem_filter]
  · rw [preload_one_call]
    split
    · next h => simpa using List.isEmpty_iff.mp h
    · next h =>
      simp only [reduceCtorEq, false_iff]
      exact fun hc => h (by simp [hc])
  · intro ids params h
    rw [preload_one_call] at h
    split at h
    · exact absurd h (by simp)
    · exact (congrArg Prod.fst (Option.some_injective _ h)).symm
  · intro hf
    rw [preload_one_preloaded, preload_one_data_ids, hf]
    exact ⟨rfl, rfl⟩

theorem c5_preload_partition_witness :
    ("arch.zip" ∈ (_preload_one false true pmEx chAll cpEx).data_ids_preloaded
      ↔ "arch.zip" ∈ cpEx.data_ids ∧ (pmEx "arch.zip").all chAll = true)
    ∧ ((_preload_one false true pmEx chAll cpEx).preloadCall = none
        ↔ (_preload_one false true pmEx chAll cpEx).data_ids = []) :=
  ⟨(c5_preload_partition false true pmEx chAll cpEx).1 rfl "arch.zip",
   (c5_preload_partition false true pmEx chAll cpEx).2.2.1⟩

/-! ## C7 — the default of the `silent` preload parameter -/

theorem lookup_append_of_none {β : Type} (l1 l2 : List (String × β)) (k : String)
    (h : l1.lookup k = none) : (l1 ++ l2).lookup k = l2.lookup k := by
  induction l1 with
  | nil => rfl
  | cons p rest ih =>
    obtain ⟨k1, v1⟩ := p
    rw [List.cons_append]
    cases hk : (k == k1) with
    | true => simp [List.lookup, hk] at h
    | false =>
      simp only [List.lookup, hk] at h ⊢
      exact ih h

/-- C7, corrected: when the preload parameters carry no `"silent"` entry and
the to-preload set is non-empty, the `silent` flag passed to the store's
preload call equals the `visualize` setting itself (`multistore.py` line 166:
`preload_params["silent"] = self.config.general["visualize"]`) — not its
negation as the spec claims. -/
theorem c7_amended_silent_default (force visualize : Bool) (pm : String → List String)
    (ch : String → Bool) (cp : PreloadConfig)
    (hsilent : cp.preload_params.lookup "silent" = none)
    (hne : (_preload_one force visualize pm ch cp).data_ids ≠ []) :
    ∃ ids, (_preload_one force visualize pm ch cp).preloadCall
        = some (ids, cp.preload_params ++ [("silent", visualize)])
      ∧ (cp.preload_params ++ [("silent", visualize)]).lookup "silent" = some visualize := by
  refine ⟨(_preload_one force visualize pm ch cp).data_ids, ?_, ?_⟩
  · rw [preload_one_call]
    rw [if_neg (by simpa [List.isEmpty_iff] using hne)]
    rw [if_pos (by simp [hsilent])]
  · rw [lookup_append_of_none _ _ _ hsilent]
    rfl

theorem c7_amended_silent_default_witness :
    cpEx.preload_params.lookup "silent" = none
    ∧ (_preload_one false true pmEx chNone cpEx).data_ids ≠ []
    ∧ ∃ ids, (_preload_one false true pmEx chNone cpEx).preloadCall
        = some (ids, cpEx.preload_params ++ [("silent", true)])
      ∧ (cpEx.preload_params ++ [("silent", true)]).lookup "silent" = some true :=
  ⟨rfl, by decide,
   c7_amended_silent_default false true pmEx chNone cpEx rfl (by decide)⟩

/-- C7, counterexample: with `visualize = true`, no explicit `silent` entry and
a non-empty to-preload set, the flag passed is `true` — the `visualize` value —
whereas the claim requires its logical negation `!true = false`. -/
theorem c7_counterexample :
    (_preload_one false true pmEx chNone cpEx).preloadCall
        = some (["arch.zip"], [("silent", true)])
    ∧ ¬ ((_preload_one false true pmEx chNone cpEx).preloadCall
        = some (["arch.zip"], [("silent", !true)])) := by
  decide

/-! ## C6 — the point-to-bbox translation raises `TypeError` -/

/-- C6: at an input where a `point` is supplied and the store schema accepts
spatial parameters (`"bbox"` and `"spatial_res"` both among
`schema.properties`), the guard of the translation evaluates
`["spatial_res"] in open_params` — the membership test of an unhashable *list*
in a dict — so `_open_single_dataset` raises `TypeError` and no bounding box is
ever assigned; the documented translation (the dead lines 268-273, which would
assign `[lon - 2*res, lat - 2*res, lon + 2*res, lat + 2*res]`) is unreachable.
Even if the guard were repaired to `"spatial_res" in open_params`, line 267
would then re-`pop` the already-popped `"point"` key and raise `KeyError`. -/
theorem c6_point_translation_raises :
    pointTranslation { hasBbox := true, hasSpatialRes := true } (some (51, 7))
      = BboxOutcome.raisedTypeError := rfl

/-! ## C10 — archives with an empty preload-index entry -/

theorem foldl_preserve {α β : Type} {P : β → Prop} (f : β → α → β) (l : List α) (b : β)
    (hb : P b) (hstep : ∀ x ∈ l, ∀ acc, P acc → P (f acc x)) : P (l.foldl f b) := by
  induction l generalizing b with
  | nil => exact hb
  | cons x xs ih =>
    exact ih (f b x) (hstep x (List.mem_cons_self x xs) b hb)
      (fun y hy acc hacc => hstep y (List.mem_cons_of_mem x hy) acc hacc)

theorem mapGet_nil (a : String) : mapGet [] a = [] := rfl

theorem mapGet_mapAppend_ne (m : PreloadMap) (k v a : String) (h : ¬ (k = a)) :
    mapGet (mapAppend m k v) a = mapGet m a := by
  induction m with
  | nil =>
    have hak : (a == k) = false := beq_eq_false_iff_ne.mpr (fun he => h he.symm)
    simp [mapAppend, mapGet, List.lookup, hak]
  | cons p rest ih =>
    obtain ⟨k1, vs1⟩ := p
    by_cases hk : (k1 == k) = true
    · rw [show mapAppend ((k1, vs1) :: rest) k v = (k1, vs1 ++ [v]) :: rest from by
        simp [mapAppend, hk]]
      have hka : (a == k1) = false :=
        beq_eq_false_iff_ne.mpr (fun he => h ((he.trans (eq_of_beq hk)).symm))
      simp [mapGet, List.lookup, hka]
    · rw [show mapAppend ((k1, vs1) :: rest) k v = (k1, vs1) :: mapAppend rest k v from by
        simp [mapAppend, hk]]
      by_cases hka : (a == k1) = true
      · simp [mapGet, List.lookup, hka]
      · simp only [Bool.not_eq_true] at hka
        simp only [mapGet, List.lookup, hka]
        exact ih

/-- An archive id whose stripped stem matches no declared source data id gets no
entry in the preload index built by `_get_preload_map`: `defaultdict` lookup
yields the empty list. -/
theorem preload_map_unmatched (formats : List String) (pds : List PreloadConfig)
    (datasets : List DatasetConfig) (a : String)
    (hno : ∀ config_ds ∈ datasets,
      stemUnmatched (remove_compressed_extension formats a) config_ds = true) :
    mapGet (_get_preload_map formats pds datasets) a = [] := by
  unfold _get_preload_map
  apply foldl_preserve (P := fun m => mapGet m a = []) _ _ _ (mapGet_nil a)
  intro cp _ m hm
  apply foldl_preserve (P := fun m => mapGet m a = []) _ _ _ hm
  intro data_id _ m1 hm1
  dsimp only
  apply foldl_preserve (P := fun m => mapGet m a = []) _ _ _ hm1
  intro config_ds hcfg m2 hm2
  by_cases hda : data_id = a
  · subst hda
    have hstem := hno config_ds hcfg
    cases hsrc : config_ds.source with
    | single ds_data_id =>
      dsimp only
      have hss : pyStrIn (remove_compressed_extension formats data_id) ds_data_id = false := by
        unfold stemUnmatched at hstem
        rw [hsrc] at hstem
        simpa using hstem
      rw [if_neg (by simp [hss])]
      exact hm2
    | multi vars =>
      dsimp only
      apply foldl_preserve (P := fun m => mapGet m data_id = []) _ _ _ hm2
      intro v hv m3 hm3
      have hss : pyStrIn (remove_compressed_extension formats data_id) v.data_id = false := by
        unfold stemUnmatched at hstem
        rw [hsrc] at hstem
        simpa using List.all_eq_true.mp hstem v hv
      rw [if_neg (by simp [hss])]
      exact hm3
  · cases hsrc : config_ds.source with
    | single ds_data_id =>
      dsimp only
      split
      · rw [mapGet_mapAppend_ne _ _ _ _ hda]
        exact hm2
      · exact hm2
    | multi vars =>
      dsimp only
      apply foldl_preserve (P := fun m => mapGet m a = []) _ _ _ hm2
      intro v hv m3 hm3
      split
      · rw [mapGet_mapAppend_ne _ _ _ _ hda]
        exact hm3
      · exact hm3

/-- C10: an archive id whose preload-index entry is empty — no declared
single-source or nested variable `data_id` contains the archive's stripped stem
as a substring — is always classified already materialized (`all` over the
empty mapped list is vacuously `true`) and is never passed to the store's
preload operation, unless the force-preload option is set, in which case it is
passed to preload like every other id. -/
theorem c10_unmatched_archive (formats : List String) (pds : List PreloadConfig)
    (datasets : List DatasetConfig) (cp : PreloadConfig) (visualize : Bool)
    (ch : String → Bool) (a : String)
    (ha : a ∈ cp.data_ids)
    (hno : ∀ config_ds ∈ datasets,
      stemUnmatched (remove_compressed_extension formats a) config_ds = true) :
    (a ∈ (_preload_one false visualize (mapGet (_get_preload_map formats pds datasets))
        ch cp).data_ids_preloaded)
    ∧ (a ∉ (_preload_one false visualize (mapGet (_get_preload_map formats pds datasets))
        ch cp).data_ids)
    ∧ (∀ ids params,
        (_preload_one false visualize (mapGet (_get_preload_map formats pds datasets))
          ch cp).preloadCall = some (ids, params) → a ∉ ids)
    ∧ (a ∈ (_preload_one true visualize (mapGet (_get_preload_map formats pds datasets))
        ch cp).data_ids) := by
  have hvac : ((mapGet (_get_preload_map formats pds datasets)) a).all ch = true := by
    rw [preload_map_unmatched formats pds datasets a hno]
    rfl
  refine ⟨?_, ?_, ?_, ?_⟩
  · rw [preload_one_preloaded]
    simp only [if_neg (by simp : ¬ ((false : Bool) = true))]
    exact List.mem_filter.mpr ⟨ha, hvac⟩
  · rw [preload_one_data_ids]
    simp only [if_neg (by simp : ¬ ((false : Bool) = true))]
    intro hmem
    have := (List.mem_filter.mp hmem).2
    rw [hvac] at this
    simp at this
  · intro ids params hcall
    have hids : ids = (_preload_one false visualize
        (mapGet (_get_preload_map formats pds datasets)) ch cp).data_ids := by
      rw [preload_one_call] at hcall
      split at hcall
      · exact absurd hcall (by simp)
      · exact (congrArg Prod.fst (Option.some_injective _ hcall)).symm
    rw [hids, preload_one_data_ids]
    simp only [if_neg (by simp : ¬ ((false : Bool) = true))]
    intro hmem
    have := (List.mem_filter.mp hmem).2
    rw [hvac] at this
    simp at this
  · rw [preload_one_data_ids]
    simpa using ha

theorem c10_unmatched_archive_witness :
    "arch.zip" ∈ cpEx.data_ids
    ∧ (∀ config_ds ∈ datasetsEx,
        stemUnmatched (remove_compressed_extension COMPRESSED_FORMATS "arch.zip")
          config_ds = true)
    ∧ ("arch.zip" ∈ (_preload_one false false
          (mapGet (_get_preload_map COMPRESSED_FORMATS [cpEx] datasetsEx))
          chNone cpEx).data_ids_preloaded
       ∧ "arch.zip" ∉ (_preload_one false false
          (mapGet (_get_preload_map COMPRESSED_FORMATS [cpEx] datasetsEx))
          chNone cpEx).data_ids
       ∧ (∀ ids params,
          (_preload_one false false
            (mapGet (_get_preload_map COMPRESSED_FORMATS [cpEx] datasetsEx))
            chNone cpEx).preloadCall = some (ids, params) → "arch.zip" ∉ ids)
       ∧ "arch.zip" ∈ (_preload_one true false
          (mapGet (_get_preload_map COMPRESSED_FORMATS [cpEx] datasetsEx))
          chNone cpEx).data_ids) :=
  ⟨by decide, by decide,
   c10_unmatched_archive COMPRESSED_FORMATS [cpEx] datasetsEx cpEx false chNone "arch.zip"
     (by decide) (by decide)⟩

/-! ## Branch equations of `generateOne` -/

theorem generateOne_skip (st : RunState) (config : DatasetConfig) (orc : StageOracle)
    (h : hasData st.store (_get_data_id config) = true) :
    generateOne st config orc = .ok (notify st (skipEvent config.identifier)) := by
  unfold generateOne
  dsimp only
  rw [h]
  rfl

theorem generateOne_open_exc (st : RunState) (config : DatasetConfig) (orc : StageOracle)
    (e : Exc) (hskip : hasData st.store (_get_data_id config) = false)
    (h : orc.openRes = .exc e) :
    generateOne st config orc
      = .ok (notifyError (afterOpen st config.identifier) config.identifier (.exc e)) := by
  unfold generateOne
  dsimp only
  rw [hskip, h]
  rfl

theorem generateOne_open_int (st : RunState) (config : DatasetConfig) (orc : StageOracle)
    (hskip : hasData st.store (_get_data_id config) = false)
    (h : orc.openRes = .interrupt) :
    generateOne st config orc
      = .ok (notifyError (afterOpen st config.identifier) config.identifier
          (.str keyboardInterruptMsg)) := by
  unfold generateOne
  dsimp only
  rw [hskip, h]
  rfl

theorem generateOne_proc_exc (st : RunState) (config : DatasetConfig) (orc : StageOracle)
    (d : Dataset) (e : Exc) (hskip : hasData st.store (_get_data_id config) = false)
    (hopen : orc.openRes = .ok d) (hproc : orc.processRes d = .exc e) :
    generateOne st config orc
      = .ok (notifyError (afterProcess st config.identifier) config.identifier (.exc e)) := by
  unfold generateOne
  dsimp only
  rw [hskip, hopen]
  dsimp only [safe_execute]
  rw [hproc]
  rfl

theorem generateOne_proc_int (st : RunState) (config : DatasetConfig) (orc : StageOracle)
    (d : Dataset) (hskip : hasData st.store (_get_data_id config) = false)
    (hopen : orc.openRes = .ok d) (hproc : orc.processRes d = .interrupt) :
    generateOne st config orc
      = .ok (notifyError (afterProcess st config.identifier) config.identifier
          (.str keyboardInterruptMsg)) := by
  unfold generateOne
  dsimp only
  rw [hskip, hopen]
  dsimp only [safe_execute]
  rw [hproc]
  rfl

theorem generateOne_write_ok (st : RunState) (config : DatasetConfig) (orc : StageOracle)
    (d d2 d3 : Dataset) (hskip : hasData st.store (_get_data_id config) = false)
    (hopen : orc.openRes = .ok d) (hproc : orc.processRes d = .ok d2)
    (hwrite : orc.writeRes d2 = .ok d3) :
    generateOne st config orc
      = .ok (notify
          { afterWrite st config.identifier with
            store := writeData (afterWrite st config.identifier).store (write_data_id config) }
          (finishEvent config.identifier)) := by
  unfold generateOne
  dsimp only
  rw [hskip, hopen]
  dsimp only [safe_execute]
  rw [hproc]
  dsimp only [safe_execute]
  rw [hwrite]
  rfl

theorem generateOne_write_exc (st : RunState) (config : DatasetConfig) (orc : StageOracle)
    (d d2 : Dataset) (e : Exc) (hskip : hasData st.store (_get_data_id config) = false)
    (hopen : orc.openRes = .ok d) (hproc : orc.processRes d = .ok d2)
    (hwrite : orc.writeRes d2 = .exc e) :
    generateOne st config orc
      = writeFailed (afterWrite st config.identifier) config orc (.exc e) := by
  unfold generateOne
  dsimp only
  rw [hskip, hopen]
  dsimp only [safe_execute]
  rw [hproc]
  dsimp only [safe_execute]
  rw [hwrite]
  rfl

theorem generateOne_write_int (st : RunState) (config : DatasetConfig) (orc : StageOracle)
    (d d2 : Dataset) (hskip : hasData st.store (_get_data_id config) = false)
    (hopen : orc.openRes = .ok d) (hproc : orc.processRes d = .ok d2)
    (hwrite : orc.writeRes d2 = .interrupt) :
    generateOne st config orc
      = writeFailed (afterWrite st config.identifier) config orc
          (.str keyboardInterruptMsg) := by
  unfold generateOne
  dsimp only
  rw [hskip, hopen]
  dsimp only [safe_execute]
  rw [hproc]
  dsimp only [safe_execute]
  rw [hwrite]
  rfl

theorem writeFailed_delOk (st : RunState) (config : DatasetConfig) (orc : StageOracle)
    (p : ExcPayload) (h1 : orc.writeResidue = true) (h2 : orc.deleteRes = none)
    (hv : hasData st.store (write_data_id config) = false) :
    writeFailed st config orc p
      = .ok (notifyError (withCall st (.deleteData (write_data_id config)))
          config.identifier p) := by
  unfold writeFailed
  rw [h1]
  simp only [eq_self_iff_true, if_true]
  rw [if_pos (by simp [hasData, writeData])]
  rw [h2]
  rw [deleteData_writeData (hasData_false_not_mem hv)]
  rfl

theorem writeFailed_delRaise (st : RunState) (config : DatasetConfig) (orc : StageOracle)
    (p : ExcPayload) (e : Exc) (h1 : orc.writeResidue = true) (h2 : orc.deleteRes = some e) :
    writeFailed st config orc p
      = .raised e (withCall { st with store := writeData st.store (write_data_id config) }
          (StageCall.deleteData (write_data_id config))) := by
  unfold writeFailed
  rw [h1]
  simp only [eq_self_iff_true, if_true]
  rw [if_pos (by simp [hasData, writeData])]
  rw [h2]
  rfl

theorem writeFailed_noResidue (st : RunState) (config : DatasetConfig) (orc : StageOracle)
    (p : ExcPayload) (h1 : orc.writeResidue = false)
    (hv : hasData st.store (write_data_id config) = false) :
    writeFailed st config orc p = .ok (notifyError st config.identifier p) := by
  unfold writeFailed
  rw [h1]
  rw [if_neg (by simp [hv])]
  rfl

theorem generate_cubes_cons_ok (st st' : RunState) (config : DatasetConfig)
    (orc : StageOracle) (rest : List (DatasetConfig × StageOracle))
    (h : generateOne st config orc = .ok st') :
    _generate_cubes st ((config, orc) :: rest) = _generate_cubes st' rest := by
  show (match generateOne st config orc with
    | .ok st2 => _generate_cubes st2 rest
    | .raised e st2 => .raised e st2) = _generate_cubes st' rest
  rw [h]

/-! ## Fail-block and success-block lemmas -/

/-- Payload that `_generate_cubes` hands to `_notify_error` when a stage body
does not return normally. -/
def stagePayload : PyOutcome Dataset → Option ExcPayload
  | .ok _ => none
  | .exc e => some (.exc e)
  | .interrupt => some (.str keyboardInterruptMsg)

theorem generateOne_allOk (st : RunState) (b : DatasetConfig) (ob : StageOracle)
    (hskip : hasData st.store (_get_data_id b) = false) (hok : allStagesSucceed ob) :
    ∃ st2, generateOne st b ob = .ok st2
      ∧ st2.calls = st.calls ++ [StageCall.openStage b.identifier,
          StageCall.processStage b.identifier, StageCall.writeStage b.identifier]
      ∧ st2.store = writeData st.store (write_data_id b)
      ∧ st2.events = st.events ++ [startEvent b.identifier, processMsgEvent b.identifier,
          writeMsgEvent b.identifier, finishEvent b.identifier] := by
  obtain ⟨⟨d, hd⟩, hp, hw⟩ := hok
  obtain ⟨d2, hd2⟩ := hp d
  obtain ⟨d3, hd3⟩ := hw d2
  refine ⟨_, generateOne_write_ok st b ob d d2 d3 hskip hd hd2 hd3, ?_, ?_, ?_⟩ <;>
    simp [afterWrite, afterProcess, afterOpen, notify, withCall, List.append_assoc]

theorem generateOne_failBlock (st : RunState) (a : DatasetConfig) (oa : StageOracle)
    (p : ExcPayload) (hskip : hasData st.store (_get_data_id a) = false)
    (hfail : stagePayload oa.openRes = some p
      ∨ (∃ d, oa.openRes = .ok d ∧ stagePayload (oa.processRes d) = some p)
      ∨ (∃ d d2, oa.openRes = .ok d ∧ oa.processRes d = .ok d2
          ∧ stagePayload (oa.writeRes d2) = some p ∧ oa.deleteRes = none)) :
    ∃ st1 E, generateOne st a oa = .ok st1
      ∧ st1.store = st.store
      ∧ st1.events = st.events ++ E
      ∧ (∀ ev ∈ E, ev.identifier = a.identifier)
      ∧ E.getLast? = some (failEvent a.identifier p) := by
  rcases hfail with h | ⟨d, hd, h⟩ | ⟨d, d2, hd, hd2, h, hdel⟩
  · cases ho : oa.openRes with
    | ok d => rw [ho] at h; exact absurd h (by simp [stagePayload])
    | exc e =>
      rw [ho] at h
      obtain rfl : ExcPayload.exc e = p := by simpa [stagePayload] using h
      exact ⟨_, [startEvent a.identifier, failEvent a.identifier (.exc e)],
        generateOne_open_exc st a oa e hskip ho, by simp [notifyError, afterOpen],
        by simp [notifyError, afterOpen, List.append_assoc], by simp, by simp⟩
    | interrupt =>
      rw [ho] at h
      obtain rfl : ExcPayload.str keyboardInterruptMsg = p := by simpa [stagePayload] using h
      exact ⟨_, [startEvent a.identifier, failEvent a.identifier (.str keyboardInterruptMsg)],
        generateOne_open_int st a oa hskip ho, by simp [notifyError, afterOpen],
        by simp [notifyError, afterOpen, List.append_assoc], by simp, by simp⟩
  · cases hpr : oa.processRes d with
    | ok d2 => rw [hpr] at h; exact absurd h (by simp [stagePayload])
    | exc e =>
      rw [hpr] at h
      obtain rfl : ExcPayload.exc e = p := by simpa [stagePayload] using h
      exact ⟨_, [startEvent a.identifier, processMsgEvent a.identifier,
          failEvent a.identifier (.exc e)],
        generateOne_proc_exc st a oa d e hskip hd hpr,
        by simp [notifyError, afterProcess, afterOpen],
        by simp [notifyError, afterProcess, afterOpen, List.append_assoc], by simp, by simp⟩
    | interrupt =>
      rw [hpr] at h
      obtain rfl : ExcPayload.str keyboardInterruptMsg = p := by simpa [stagePayload] using h
      exact ⟨_, [startEvent a.identifier, processMsgEvent a.identifier,
          failEvent a.identifier (.str keyboardInterruptMsg)],
        generateOne_proc_int st a oa d hskip hd hpr,
        by simp [notifyError, afterProcess, afterOpen],
        by simp [notifyError, afterProcess, afterOpen, List.append_assoc], by simp, by simp⟩
  · have hv : hasData (afterWrite st a.identifier).store (write_data_id a) = false := by
      simp only [afterWrite, afterProcess, afterOpen, withCall_store, notify_store]
      rw [write_data_id_eq]
      exact hskip
    have hfin : ∀ q, q = p →
        ∃ st1 E, writeFailed (afterWrite st a.identifier) a oa q = .ok st1
          ∧ st1.store = st.store
          ∧ st1.events = st.events ++ E
          ∧ (∀ ev ∈ E, ev.identifier = a.identifier)
          ∧ E.getLast? = some (failEvent a.identifier p) := by
      intro q hq
      subst hq
      cases hres : oa.writeResidue with
      | false =>
        rw [writeFailed_noResidue _ _ _ _ hres hv]
        exact ⟨_, [startEvent a.identifier, processMsgEvent a.identifier,
            writeMsgEvent a.identifier, failEvent a.identifier q],
          rfl, by simp [notifyError, afterWrite, afterProcess, afterOpen],
          by simp [notifyError, afterWrite, afterProcess, afterOpen, List.append_assoc],
          by simp, by simp⟩
      | true =>
        rw [writeFailed_delOk _ _ _ _ hres hdel hv]
        exact ⟨_, [startEvent a.identifier, processMsgEvent a.identifier,
            writeMsgEvent a.identifier, failEvent a.identifier q],
          rfl, by simp [notifyError, afterWrite, afterProcess, afterOpen],
          by simp [notifyError, afterWrite, afterProcess, afterOpen, List.append_assoc],
          by simp, by simp⟩
    cases hw : oa.writeRes d2 with
    | ok d3 => rw [hw] at h; exact absurd h (by simp [stagePayload])
    | exc e =>
      rw [hw] at h
      have hp : ExcPayload.exc e = p := by simpa [stagePayload] using h
      rw [generateOne_write_exc st a oa d d2 e hskip hd hd2 hw]
      exact hfin (.exc e) hp
    | interrupt =>
      rw [hw] at h
      have hp : ExcPayload.str keyboardInterruptMsg = p := by simpa [stagePayload] using h
      rw [generateOne_write_int st a oa d d2 hskip hd hd2 hw]
      exact hfin (.str keyboardInterruptMsg) hp

/-! ## C2 — the skip check -/

/-- C2: for every artifact whose output id (identifier plus format extension,
`_get_data_id`) is already held by the output store when its turn starts, the
iteration makes none of the open/process/write stage calls, changes neither the
store nor the call log, records the terminal state `stopped` with the
"already generated" message, and the loop moves on to the next artifact. -/
theorem c2_skip_already_generated (st : RunState) (config : DatasetConfig)
    (orc : StageOracle) (rest : List (DatasetConfig × StageOracle))
    (hskip : hasData st.store (_get_data_id config) = true)
    (hid : (st.states config.identifier).identifier = config.identifier) :
    ∃ st', generateOne st config orc = .ok st'
      ∧ st'.events = st.events ++
          [{ identifier := config.identifier,
             status := some .stopped,
             message := some ("Dataset " ++ pyRepr config.identifier ++ " already generated."),
             exception := none }]
      ∧ st'.calls = st.calls
      ∧ st'.store = st.store
      ∧ (st'.states config.identifier).status = some GeneratorStatus.stopped
      ∧ _generate_cubes st ((config, orc) :: rest) = _generate_cubes st' rest := by
  refine ⟨notify st (skipEvent config.identifier), generateOne_skip st config orc hskip,
    rfl, rfl, rfl, ?_,
    generate_cubes_cons_ok _ _ _ _ _ (generateOne_skip st config orc hskip)⟩
  simp only [notify_states]
  unfold GeneratorState.update
  rw [if_pos (by simpa using hid)]
  rfl

theorem c2_skip_already_generated_witness :
    hasData (initRun ["ds1.zarr"]).store (_get_data_id cfgA) = true
    ∧ ((initRun ["ds1.zarr"]).states cfgA.identifier).identifier = cfgA.identifier
    ∧ (∃ st', generateOne (initRun ["ds1.zarr"]) cfgA okOracle = .ok st'
      ∧ st'.events = (initRun ["ds1.zarr"]).events ++
          [{ identifier := cfgA.identifier,
             status := some .stopped,
             message := some ("Dataset " ++ pyRepr cfgA.identifier ++ " already generated."),
             exception := none }]
      ∧ st'.calls = (initRun ["ds1.zarr"]).calls
      ∧ st'.store = (initRun ["ds1.zarr"]).store
      ∧ (st'.states cfgA.identifier).status = some GeneratorStatus.stopped
      ∧ _generate_cubes (initRun ["ds1.zarr"]) ((cfgA, okOracle) :: [])
          = _generate_cubes st' []) :=
  ⟨by decide, rfl,
   c2_skip_already_generated (initRun ["ds1.zarr"]) cfgA okOracle [] (by decide) rfl⟩

/-! ## C1 — per-artifact failure isolation, amended -/

/-- C1, corrected: when a stage of artifact `a` raises an `Exception` — and, if
the failing stage is the write, the unguarded cleanup delete does not itself
raise — the exception is captured (the iteration returns normally), a terminal
`failed` event carrying it is the last event recorded for `a`, the output store
is left as it was, and the loop proceeds to the next artifact `b`, whose open,
process and write stages all run.  (The un-amended claim fails when the write
stage raises and the cleanup `delete_data` call raises too: the delete call on
`multistore.py` line 225 is unguarded, so that exception escapes
`_generate_cubes` and no further artifact is processed — see the
counterexample.) -/
theorem c1_amended_failure_isolation (st : RunState) (a b : DatasetConfig)
    (oa ob : StageOracle) (rest : List (DatasetConfig × StageOracle)) (e : Exc)
    (hna : hasData st.store (_get_data_id a) = false)
    (hfail : failsAtSomeStage oa e)
    (hnb : hasData st.store (_get_data_id b) = false)
    (hok : allStagesSucceed ob) :
    ∃ st1 st2,
      generateOne st a oa = .ok st1
      ∧ st1.store = st.store
      ∧ (∃ E, st1.events = st.events ++ E ∧ (∀ ev ∈ E, ev.identifier = a.identifier)
          ∧ E.getLast? = some (failEvent a.identifier (.exc e)))
      ∧ generateOne st1 b ob = .ok st2
      ∧ StageCall.openStage b.identifier ∈ st2.calls
      ∧ StageCall.processStage b.identifier ∈ st2.calls
      ∧ StageCall.writeStage b.identifier ∈ st2.calls
      ∧ _generate_cubes st ((a, oa) :: (b, ob) :: rest) = _generate_cubes st2 rest := by
  have hfail' : stagePayload oa.openRes = some (.exc e)
      ∨ (∃ d, oa.openRes = .ok d ∧ stagePayload (oa.processRes d) = some (.exc e))
      ∨ (∃ d d2, oa.openRes = .ok d ∧ oa.processRes d = .ok d2
          ∧ stagePayload (oa.writeRes d2) = some (.exc e) ∧ oa.deleteRes = none) := by
    rcases hfail with h | ⟨d, hd, h⟩ | ⟨d, d2, hd, hd2, h, hdel⟩
    · exact Or.inl (by rw [h]; rfl)
    · exact Or.inr (Or.inl ⟨d, hd, by rw [h]; rfl⟩)
    · exact Or.inr (Or.inr ⟨d, d2, hd, hd2, by rw [h]; rfl, hdel⟩)
  obtain ⟨st1, E, hgen, hstore, hev, hids, hlast⟩ :=
    generateOne_failBlock st a oa (.exc e) hna hfail'
  obtain ⟨st2, hgen2, hcalls, _, _⟩ :=
    generateOne_allOk st1 b ob (by rw [hstore]; exact hnb) hok
  refine ⟨st1, st2, hgen, hstore, ⟨E, hev, hids, hlast⟩, hgen2, ?_, ?_, ?_, ?_⟩
  · rw [hcalls]; simp
  · rw [hcalls]; simp
  · rw [hcalls]; simp
  · rw [generate_cubes_cons_ok _ _ _ _ _ hgen, generate_cubes_cons_ok _ _ _ _ _ hgen2]

theorem c1_amended_failure_isolation_witness :
    hasData (initRun []).store (_get_data_id cfgA) = false
    ∧ failsAtSomeStage openFailOracle excOpen
    ∧ hasData (initRun []).store (_get_data_id cfgB) = false
    ∧ allStagesSucceed okOracle
    ∧ (∃ st1 st2,
        generateOne (initRun []) cfgA openFailOracle = .ok st1
        ∧ st1.store = (initRun []).store
        ∧ (∃ E, st1.events = (initRun []).events ++ E
            ∧ (∀ ev ∈ E, ev.identifier = cfgA.identifier)
            ∧ E.getLast? = some (failEvent cfgA.identifier (.exc excOpen)))
        ∧ generateOne st1 cfgB okOracle = .ok st2
        ∧ StageCall.openStage cfgB.identifier ∈ st2.calls
        ∧ StageCall.processStage cfgB.identifier ∈ st2.calls
        ∧ StageCall.writeStage cfgB.identifier ∈ st2.calls
        ∧ _generate_cubes (initRun []) ((cfgA, openFailOracle) :: (cfgB, okOracle) :: [])
            = _generate_cubes st2 []) :=
  ⟨by decide, Or.inl rfl, by decide,
   ⟨⟨0, rfl⟩, fun _ => ⟨0, rfl⟩, fun _ => ⟨0, rfl⟩⟩,
   c1_amended_failure_isolation (initRun []) cfgA cfgB openFailOracle okOracle [] excOpen
     (by decide) (Or.inl rfl) (by decide)
     ⟨⟨0, rfl⟩, fun _ => ⟨0, rfl⟩, fun _ => ⟨0, rfl⟩⟩⟩

/-- C1, counterexample to the claim as stated: in the run `c1run` the first
artifact's write stage raises `excWrite` (a stage exception, so the claim's
antecedent holds) but the cleanup delete raises `excDelete`; the run does not
return — `excDelete` escapes it — the `failed` event for the first artifact is
never recorded (its status trace ends at `started`), and the second declared
artifact is never processed (its open stage never runs). -/
theorem c1_counterexample :
    c1run.isOk = false
    ∧ c1run.raisedExc = some excDelete
    ∧ statusesOf (eventsFor cfgA.identifier c1run.state.events)
        = [GeneratorStatus.started]
    ∧ StageCall.openStage cfgB.identifier ∉ c1run.state.calls := by
  decide

/-! ## C3 — keyboard interrupt, amended -/

/-- C3, corrected: a `KeyboardInterrupt` raised during a pipeline stage is
captured with the fixed message `"Keyboard Interrupt caught! Exiting
gracefully."`, which is recorded (as a string payload, distinct from the
exception-object payload of generic failures) in a terminal `failed` event for
the current artifact — but it does *not* end the run: nothing re-raises after
the capture, so the batch continues with the subsequent artifacts exactly as
after a generic failure.  (The spec's expectation that the interrupt
"propagates out after being captured" fails on the code — see the
counterexample.) -/
theorem c3_amended_interrupt_swallowed (st : RunState) (a : DatasetConfig)
    (oa : StageOracle) (rest : List (DatasetConfig × StageOracle))
    (hskip : hasData st.store (_get_data_id a) = false)
    (hint : interruptedAtSomeStage oa) :
    ∃ st1 E, generateOne st a oa = .ok st1
      ∧ st1.events = st.events ++ E
      ∧ E.getLast? = some (failEvent a.identifier (.str keyboardInterruptMsg))
      ∧ _generate_cubes st ((a, oa) :: rest) = _generate_cubes st1 rest := by
  have hint' : stagePayload oa.openRes = some (.str keyboardInterruptMsg)
      ∨ (∃ d, oa.openRes = .ok d
          ∧ stagePayload (oa.processRes d) = some (.str keyboardInterruptMsg))
      ∨ (∃ d d2, oa.openRes = .ok d ∧ oa.processRes d = .ok d2
          ∧ stagePayload (oa.writeRes d2) = some (.str keyboardInterruptMsg)
          ∧ oa.deleteRes = none) := by
    rcases hint with h | ⟨d, hd, h⟩ | ⟨d, d2, hd, hd2, h, hdel⟩
    · exact Or.inl (by rw [h]; rfl)
    · exact Or.inr (Or.inl ⟨d, hd, by rw [h]; rfl⟩)
    · exact Or.inr (Or.inr ⟨d, d2, hd, hd2, by rw [h]; rfl, hdel⟩)
  obtain ⟨st1, E, hgen, _, hev, _, hlast⟩ :=
    generateOne_failBlock st a oa (.str keyboardInterruptMsg) hskip hint'
  exact ⟨st1, E, hgen, hev, hlast, generate_cubes_cons_ok _ _ _ _ _ hgen⟩

theorem c3_amended_interrupt_swallowed_witness :
    hasData (initRun []).store (_get_data_id cfgA) = false
    ∧ interruptedAtSomeStage openInterruptOracle
    ∧ (∃ st1 E, generateOne (initRun []) cfgA openInterruptOracle = .ok st1
      ∧ st1.events = (initRun []).events ++ E
      ∧ E.getLast? = some (failEvent cfgA.identifier (.str keyboardInterruptMsg))
      ∧ _generate_cubes (initRun []) ((cfgA, openInterruptOracle) :: [])
          = _generate_cubes st1 []) :=
  ⟨by decide, Or.inl rfl,
   c3_amended_interrupt_swallowed (initRun []) cfgA openInterruptOracle []
     (by decide) (Or.inl rfl)⟩

/-- C3, counterexample to the claim as stated: in the run `c3run` the first
artifact's open stage raises `KeyboardInterrupt`; the run returns normally
(nothing propagates out), the interrupt is recorded as the first artifact's
`failed` payload with the fixed message, and the batch continues — the second
artifact's write stage runs. -/
theorem c3_counterexample :
    c3run.isOk = true
    ∧ StageCall.writeStage cfgB.identifier ∈ c3run.state.calls
    ∧ (c3run.state.states cfgA.identifier).exception
        = some (.str keyboardInterruptMsg)
    ∧ (c3run.state.states cfgA.identifier).status = some GeneratorStatus.failed := by
  decide

/-! ## C4 — cleanup of partial writes, amended -/

/-- C4, corrected: when an artifact's write stage raises `e`, the iteration
recomputes the output data id and runs `store.has_data(data_id) and
store.delete_data(data_id)` before notifying the failure.  When the delete call
returns normally (or no partial output is present so it is skipped), the output
store afterwards reports `hasData` false at the output id, the terminal event
is `failed` carrying the original write exception, a delete call was made
whenever partial output was present, and the loop proceeds.  But the delete
call is unguarded: if it raises `d3`, that exception escapes `_generate_cubes`
in place of the captured write error, the `failed` event is never emitted (the
artifact's events stop at the `Write dataset` message), and the partial output
is still present. -/
theorem c4_amended_write_cleanup (st : RunState) (a : DatasetConfig) (oa : StageOracle)
    (rest : List (DatasetConfig × StageOracle)) (e : Exc) (d d2 : Dataset)
    (hskip : hasData st.store (_get_data_id a) = false)
    (hopen : oa.openRes = .ok d) (hproc : oa.processRes d = .ok d2)
    (hwrite : oa.writeRes d2 = .exc e) :
    (oa.deleteRes = none →
      ∃ st1, generateOne st a oa = .ok st1
        ∧ hasData st1.store (_get_data_id a) = false
        ∧ (∃ E, st1.events = st.events ++ E
            ∧ E.getLast? = some (failEvent a.identifier (.exc e)))
        ∧ (oa.writeResidue = true → StageCall.deleteData (_get_data_id a) ∈ st1.calls)
        ∧ _generate_cubes st ((a, oa) :: rest) = _generate_cubes st1 rest)
    ∧ (∀ d3, oa.deleteRes = some d3 → oa.writeResidue = true →
        (generateOne st a oa).isOk = false
        ∧ (generateOne st a oa).raisedExc = some d3
        ∧ (generateOne st a oa).state.events
            = st.events ++ [startEvent a.identifier, processMsgEvent a.identifier,
                writeMsgEvent a.identifier]
        ∧ hasData (generateOne st a oa).state.store (_get_data_id a) = true) := by
  have hg := generateOne_write_exc st a oa d d2 e hskip hopen hproc hwrite
  have hv : hasData (afterWrite st a.identifier).store (write_data_id a) = false := by
    simp only [afterWrite, afterProcess, afterOpen, withCall_store, notify_store]
    rw [write_data_id_eq]
    exact hskip
  constructor
  · intro hdel
    cases hres : oa.writeResidue with
    | false =>
      rw [hg, writeFailed_noResidue _ _ _ _ hres hv]
      refine ⟨_, rfl, ?_, ?_, ?_, ?_⟩
      · simpa [notifyError, afterWrite, afterProcess, afterOpen] using hskip
      · exact ⟨[startEvent a.identifier, processMsgEvent a.identifier,
          writeMsgEvent a.identifier, failEvent a.identifier (.exc e)],
          by simp [notifyError, afterWrite, afterProcess, afterOpen, List.append_assoc],
          by simp⟩
      · intro hcontra
        exact absurd hcontra (by simp)
      · exact generate_cubes_cons_ok _ _ _ _ _
          (by rw [hg, writeFailed_noResidue _ _ _ _ hres hv])
    | true =>
      rw [hg, writeFailed_delOk _ _ _ _ hres hdel hv]
      refine ⟨_, rfl, ?_, ?_, ?_, ?_⟩
      · simpa [notifyError, afterWrite, afterProcess, afterOpen] using hskip
      · exact ⟨[startEvent a.identifier, processMsgEvent a.identifier,
          writeMsgEvent a.identifier, failEvent a.identifier (.exc e)],
          by simp [notifyError, afterWrite, afterProcess, afterOpen, List.append_assoc],
          by simp⟩
      · intro _
        rw [← write_data_id_eq]
        simp [notifyError, afterWrite, afterProcess, afterOpen]
      · exact generate_cubes_cons_ok _ _ _ _ _
          (by rw [hg, writeFailed_delOk _ _ _ _ hres hdel hv])
  · intro d3 hdel hres
    rw [hg, writeFailed_delRaise _ _ _ _ d3 hres hdel]
    refine ⟨rfl, rfl, ?_, ?_⟩
    · simp [RunOutcome.state, afterWrite, afterProcess, afterOpen, List.append_assoc]
    · rw [← write_data_id_eq]
      simp [RunOutcome.state, afterWrite, afterProcess, afterOpen, hasData, writeData]

theorem c4_amended_write_cleanup_witness :
    hasData (initRun []).store (_get_data_id cfgA) = false
    ∧ writeFailOracle.openRes = .ok 0
    ∧ writeFailOracle.processRes 0 = .ok 0
    ∧ writeFailOracle.writeRes 0 = .exc excWrite
    ∧ writeFailOracle.deleteRes = none
    ∧ (∃ st1, generateOne (initRun []) cfgA writeFailOracle = .ok st1
        ∧ hasData st1.store (_get_data_id cfgA) = false
        ∧ (∃ E, st1.events = (initRun []).events ++ E
            ∧ E.getLast? = some (failEvent cfgA.identifier (.exc excWrite)))
        ∧ (writeFailOracle.writeResidue = true →
            StageCall.deleteData (_get_data_id cfgA) ∈ st1.calls)
        ∧ _generate_cubes (initRun []) ((cfgA, writeFailOracle) :: [])
            = _generate_cubes st1 []) :=
  ⟨by decide, rfl, rfl, rfl, rfl,
   (c4_amended_write_cleanup (initRun []) cfgA writeFailOracle [] excWrite 0 0
     (by decide) rfl rfl rfl).1 rfl⟩

/-- C4, counterexample to the claim as stated: in `c4run` the write stage fails
leaving partial output and the cleanup delete itself raises.  Contrary to the
claim, the delete's failure is what surfaces — `excDelete`, not the original
`excWrite`, escapes the run — the `failed` event is never emitted (the status
trace for the artifact ends at `started`), and the output store still reports
`hasData` true at the artifact's output id afterwards. -/
theorem c4_counterexample :
    c4run.isOk = false
    ∧ c4run.raisedExc = some excDelete
    ∧ excDelete ≠ excWrite
    ∧ hasData c4run.state.store (_get_data_id cfgA) = true
    ∧ statusesOf (eventsFor cfgA.identifier c4run.state.events)
        = [GeneratorStatus.started] := by
  decide

/-! ## C8 — the per-artifact state machine -/

theorem applyEvents_append (g : GeneratorState) (E F : List GeneratorState) :
    applyEvents g (E ++ F) = applyEvents (applyEvents g E) F :=
  List.foldl_append _ _ _ _

theorem applyEvents_identifier (g : GeneratorState) (E : List GeneratorState) :
    (applyEvents g E).identifier = g.identifier := by
  induction E generalizing g with
  | nil => rfl
  | cons e E ih => rw [applyEvents, List.foldl_cons]; exact (ih _).trans (update_identifier g e)

theorem applyEvents_filter (g : GeneratorState) (es : List GeneratorState) :
    applyEvents g es = applyEvents g (eventsFor g.identifier es) := by
  induction es generalizing g with
  | nil => rfl
  | cons e es ih =>
    by_cases he : e.identifier = g.identifier
    · rw [show eventsFor g.identifier (e :: es) = e :: eventsFor g.identifier es from by
        simp [eventsFor, he]]
      rw [applyEvents, List.foldl_cons, applyEvents, List.foldl_cons]
      have := ih (g.update e)
      rw [update_identifier g e] at this
      exact this
    · rw [show eventsFor g.identifier (e :: es) = eventsFor g.identifier es from by
        simp [eventsFor, he]]
      rw [applyEvents, List.foldl_cons]
      rw [update_of_ne g e (fun hc => he hc.symm)]
      exact ih g

theorem update_status_some (g e : GeneratorState) (h : g.identifier = e.identifier)
    (s : GeneratorStatus) (hs : e.status = some s) : (g.update e).status = some s := by
  unfold GeneratorState.update
  rw [if_pos h]
  simp [hs]

theorem shape_identifiers {id : String} {E : List GeneratorState} (h : shapeOk id E) :
    ∀ e ∈ E, e.identifier = id := by
  rcases h with rfl | ⟨p, rfl⟩ | ⟨p, rfl⟩ | ⟨p, rfl⟩ | rfl <;> simp

theorem shape_statuses {id : String} {E : List GeneratorState} (h : shapeOk id E) :
    statusesOf E = [GeneratorStatus.stopped]
    ∨ statusesOf E = [GeneratorStatus.started, GeneratorStatus.stopped]
    ∨ statusesOf E = [GeneratorStatus.started, GeneratorStatus.failed] := by
  rcases h with rfl | ⟨p, rfl⟩ | ⟨p, rfl⟩ | ⟨p, rfl⟩ | rfl
  · exact Or.inl (by simp [statusesOf, skipEvent])
  · exact Or.inr (Or.inr (by simp [statusesOf, startEvent, failEvent]))
  · exact Or.inr (Or.inr (by simp [statusesOf, startEvent, processMsgEvent, failEvent]))
  · exact Or.inr (Or.inr
      (by simp [statusesOf, startEvent, processMsgEvent, writeMsgEvent, failEvent]))
  · exact Or.inr (Or.inl
      (by simp [statusesOf, startEvent, processMsgEvent, writeMsgEvent, finishEvent]))

theorem shape_terminal_count {id : String} {E : List GeneratorState} (h : shapeOk id E) :
    (statusesOf E).countP
      (fun s => s == GeneratorStatus.stopped || s == GeneratorStatus.failed) = 1 := by
  rcases shape_statuses h with hs | hs | hs <;> rw [hs] <;> rfl

theorem shape_final_status {id : String} {E : List GeneratorState} (g : GeneratorState)
    (hgid : g.identifier = id) (h : shapeOk id E) :
    (applyEvents g E).status = some GeneratorStatus.stopped
    ∨ (applyEvents g E).status = some GeneratorStatus.failed := by
  rcases h with rfl | ⟨p, rfl⟩ | ⟨p, rfl⟩ | ⟨p, rfl⟩ | rfl
  · exact Or.inl (update_status_some g _ (by simpa using hgid) _ rfl)
  · exact Or.inr (update_status_some _ _
      (by rw [update_identifier]; simpa using hgid) _ rfl)
  · exact Or.inr (update_status_some _ _
      (by rw [update_identifier, update_identifier]; simpa using hgid) _ rfl)
  · exact Or.inr (update_status_some _ _
      (by rw [update_identifier, update_identifier, update_identifier]; simpa using hgid)
      _ rfl)
  · exact Or.inl (update_status_some _ _
      (by rw [update_identifier, update_identifier, update_identifier]; simpa using hgid)
      _ rfl)

theorem generate_cubes_cons_raised (st st' : RunState) (config : DatasetConfig)
    (orc : StageOracle) (rest : List (DatasetConfig × StageOracle)) (e : Exc)
    (h : generateOne st config orc = .raised e st') :
    _generate_cubes st ((config, orc) :: rest) = .raised e st' := by
  show (match generateOne st config orc with
    | .ok st2 => _generate_cubes st2 rest
    | .raised e2 st2 => .raised e2 st2) = RunOutcome.raised e st'
  rw [h]

set_option maxHeartbeats 2000000 in
theorem generateOne_ok_spec (st st' : RunState) (config : DatasetConfig)
    (orc : StageOracle) (h : generateOne st config orc = .ok st') :
    ∃ E, st'.events = st.events ++ E
      ∧ st'.states = (fun id => applyEvents (st.states id) E)
      ∧ shapeOk config.identifier E := by
  cases hD : hasData st.store (_get_data_id config) with
  | true =>
    rw [generateOne_skip st config orc hD] at h
    obtain rfl : notify st (skipEvent config.identifier) = st' := by
      injection h
    exact ⟨[skipEvent config.identifier], rfl, funext fun id => rfl, Or.inl rfl⟩
  | false =>
    cases ho : orc.openRes with
    | exc e =>
      rw [generateOne_open_exc st config orc e hD ho] at h
      obtain rfl : notifyError (afterOpen st config.identifier) config.identifier (.exc e)
          = st' := by injection h
      exact ⟨[startEvent config.identifier, failEvent config.identifier (.exc e)],
        by simp [notifyError, afterOpen, List.append_assoc],
        funext fun id => rfl, Or.inr (Or.inl ⟨_, rfl⟩)⟩
    | interrupt =>
      rw [generateOne_open_int st config orc hD ho] at h
      obtain rfl : notifyError (afterOpen st config.identifier) config.identifier
          (.str keyboardInterruptMsg) = st' := by injection h
      exact ⟨[startEvent config.identifier,
          failEvent config.identifier (.str keyboardInterruptMsg)],
        by simp [notifyError, afterOpen, List.append_assoc],
        funext fun id => rfl, Or.inr (Or.inl ⟨_, rfl⟩)⟩
    | ok d =>
      cases hp : orc.processRes d with
      | exc e =>
        rw [generateOne_proc_exc st config orc d e hD ho hp] at h
        obtain rfl : notifyError (afterProcess st config.identifier) config.identifier
            (.exc e) = st' := by injection h
        exact ⟨[startEvent config.identifier, processMsgEvent config.identifier,
            failEvent config.identifier (.exc e)],
          by simp [notifyError, afterProcess, afterOpen, List.append_assoc],
          funext fun id => rfl, Or.inr (Or.inr (Or.inl ⟨_, rfl⟩))⟩
      | interrupt =>
        rw [generateOne_proc_int st config orc d hD ho hp] at h
        obtain rfl : notifyError (afterProcess st config.identifier) config.identifier
            (.str keyboardInterruptMsg) = st' := by injection h
        exact ⟨[startEvent config.identifier, processMsgEvent config.identifier,
            failEvent config.identifier (.str keyboardInterruptMsg)],
          by simp [notifyError, afterProcess, afterOpen, List.append_assoc],
          funext fun id => rfl, Or.inr (Or.inr (Or.inl ⟨_, rfl⟩))⟩
      | ok d2 =>
        have hv : hasData (afterWrite st config.identifier).store (write_data_id config)
            = false := by
          simp only [afterWrite, afterProcess, afterOpen, withCall_store, notify_store]
          rw [write_data_id_eq]
          exact hD
        cases hw : orc.writeRes d2 with
        | ok d3 =>
          rw [generateOne_write_ok st config orc d d2 d3 hD ho hp hw] at h
          obtain rfl : notify { afterWrite st config.identifier with
              store := writeData (afterWrite st config.identifier).store
                (write_data_id config) } (finishEvent config.identifier) = st' := by
            injection h
          exact ⟨[startEvent config.identifier, processMsgEvent config.identifier,
              writeMsgEvent config.identifier, finishEvent config.identifier],
            by simp [afterWrite, afterProcess, afterOpen, List.append_assoc],
            funext fun id => rfl, Or.inr (Or.inr (Or.inr (Or.inr rfl)))⟩
        | exc e =>
          rw [generateOne_write_exc st config orc d d2 e hD ho hp hw] at h
          cases hres : orc.writeResidue with
          | false =>
            rw [writeFailed_noResidue _ _ _ _ hres hv] at h
            obtain rfl : notifyError (afterWrite st config.identifier) config.identifier
                (.exc e) = st' := by injection h
            exact ⟨[startEvent config.identifier, processMsgEvent config.identifier,
                writeMsgEvent config.identifier, failEvent config.identifier (.exc e)],
              by simp [notifyError, afterWrite, afterProcess, afterOpen, List.append_assoc],
              funext fun id => rfl, Or.inr (Or.inr (Or.inr (Or.inl ⟨_, rfl⟩)))⟩
          | true =>
            cases hdel : orc.deleteRes with
            | some e2 =>
              rw [writeFailed_delRaise (afterWrite st config.identifier) config orc
                (.exc e) e2 hres hdel] at h
              exact absurd h (fun hc => RunOutcome.noConfusion hc)
            | none =>
              rw [writeFailed_delOk _ _ _ _ hres hdel hv] at h
              obtain rfl : notifyError (withCall (afterWrite st config.identifier)
                  (.deleteData (write_data_id config))) config.identifier (.exc e)
                  = st' := by injection h
              exact ⟨[startEvent config.identifier, processMsgEvent config.identifier,
                  writeMsgEvent config.identifier, failEvent config.identifier (.exc e)],
                by simp [notifyError, afterWrite, afterProcess, afterOpen,
                  List.append_assoc],
                funext fun id => rfl, Or.inr (Or.inr (Or.inr (Or.inl ⟨_, rfl⟩)))⟩
        | interrupt =>
          rw [generateOne_write_int st config orc d d2 hD ho hp hw] at h
          cases hres : orc.writeResidue with
          | false =>
            rw [writeFailed_noResidue _ _ _ _ hres hv] at h
            obtain rfl : notifyError (afterWrite st config.identifier) config.identifier
                (.str keyboardInterruptMsg) = st' := by injection h
            exact ⟨[startEvent config.identifier, processMsgEvent config.identifier,
                writeMsgEvent config.identifier,
                failEvent config.identifier (.str keyboardInterruptMsg)],
              by simp [notifyError, afterWrite, afterProcess, afterOpen, List.append_assoc],
              funext fun id => rfl, Or.inr (Or.inr (Or.inr (Or.inl ⟨_, rfl⟩)))⟩
          | true =>
            cases hdel : orc.deleteRes with
            | some e2 =>
              rw [writeFailed_delRaise (afterWrite st config.identifier) config orc
                (.str keyboardInterruptMsg) e2 hres hdel] at h
              exact absurd h (fun hc => RunOutcome.noConfusion hc)
            | none =>
              rw [writeFailed_delOk _ _ _ _ hres hdel hv] at h
              obtain rfl : notifyError (withCall (afterWrite st config.identifier)
                  (.deleteData (write_data_id config))) config.identifier
                  (.str keyboardInterruptMsg) = st' := by injection h
              exact ⟨[startEvent config.identifier, processMsgEvent config.identifier,
                  writeMsgEvent config.identifier,
                  failEvent config.identifier (.str keyboardInterruptMsg)],
                by simp [notifyError, afterWrite, afterProcess, afterOpen,
                  List.append_assoc],
                funext fun id => rfl, Or.inr (Or.inr (Or.inr (Or.inl ⟨_, rfl⟩)))⟩

theorem run_ok_blocks (cfgs : List (DatasetConfig × StageOracle)) (st st' : RunState)
    (h : _generate_cubes st cfgs = .ok st') :
    ∃ tail, st'.events = st.events ++ tail
      ∧ st'.states = (fun id => applyEvents (st.states id) tail)
      ∧ BlocksOf cfgs tail := by
  induction cfgs generalizing st with
  | nil =>
    obtain rfl : st = st' := by injection h
    exact ⟨[], by simp, funext fun id => rfl, BlocksOf.nil⟩
  | cons p rest ih =>
    obtain ⟨config, orc⟩ := p
    cases hg : generateOne st config orc with
    | raised e st1 =>
      rw [generate_cubes_cons_raised st st1 config orc rest e hg] at h
      exact absurd h (fun hc => RunOutcome.noConfusion hc)
    | ok st1 =>
      rw [generate_cubes_cons_ok st st1 config orc rest hg] at h
      obtain ⟨E, hev1, hstates1, hshape⟩ := generateOne_ok_spec st st1 config orc hg
      obtain ⟨tail, hev2, hstates2, hblocks⟩ := ih st1 h
      refine ⟨E ++ tail, ?_, ?_, BlocksOf.cons hshape hblocks⟩
      · rw [hev2, hev1, List.append_assoc]
      · rw [hstates2, hstates1]
        funext id
        exact (applyEvents_append _ _ _).symm

theorem blocks_eventsFor_nil (cfgs : List (DatasetConfig × StageOracle))
    (tail : List GeneratorState) (id : String) (hb : BlocksOf cfgs tail)
    (hid : id ∉ cfgs.map (fun q => q.1.identifier)) : eventsFor id tail = [] := by
  induction hb with
  | nil => rfl
  | @cons p rest E tail' hshape hrest ih =>
    rw [List.map_cons, List.mem_cons] at hid
    push_neg at hid
    rw [show eventsFor id (E ++ tail') = eventsFor id E ++ eventsFor id tail' from
      List.filter_append _ _]
    rw [ih hid.2, List.append_nil]
    refine List.filter_eq_nil_iff.mpr (fun ev hev => ?_)
    rw [shape_identifiers hshape ev hev]
    simpa using fun hc => hid.1 hc.symm

theorem blocks_eventsFor (cfgs : List (DatasetConfig × StageOracle))
    (tail : List GeneratorState) (p : DatasetConfig × StageOracle)
    (hb : BlocksOf cfgs tail)
    (hnd : (cfgs.map (fun q => q.1.identifier)).Nodup) (hp : p ∈ cfgs) :
    shapeOk p.1.identifier (eventsFor p.1.identifier tail) := by
  induction hb with
  | nil => cases hp
  | @cons q rest E tail' hshape hrest ih =>
    rw [List.map_cons, List.nodup_cons] at hnd
    rw [show eventsFor p.1.identifier (E ++ tail')
        = eventsFor p.1.identifier E ++ eventsFor p.1.identifier tail' from
      List.filter_append _ _]
    rcases List.mem_cons.mp hp with rfl | hp'
    · rw [blocks_eventsFor_nil rest tail' p.1.identifier hrest hnd.1, List.append_nil]
      rw [show eventsFor p.1.identifier E = E from
        List.filter_eq_self.mpr (fun ev hev => by
          simp [shape_identifiers hshape ev hev])]
      exact hshape
    · have hne : q.1.identifier ≠ p.1.identifier := by
        intro hc
        exact hnd.1 (hc ▸ List.mem_map_of_mem (fun q => q.1.identifier) hp')
      rw [show eventsFor p.1.identifier E = [] from
        List.filter_eq_nil_iff.mpr (fun ev hev => by
          rw [shape_identifiers hshape ev hev]
          simpa using fun hc => hne hc)]
      rw [List.nil_append]
      exact ih hnd.2 hp'

/-- C8: in a run that completes normally, every declared artifact's recorded
status sequence (its events' non-`None` statuses, starting from the initial
`waiting` record) is `stopped` alone (the skip short-circuit), or
`started, stopped`, or `started, failed` — so the state machine
`waiting → started → (stopped | failed)` with the short-circuit
`waiting → stopped` is respected, exactly one terminal event is recorded per
artifact per run, no artifact leaves a terminal state within the run, and no
artifact's tracker record remains `started` after normal completion: each ends
in `stopped` or `failed`. -/
theorem c8_state_machine (σ : List String) (cfgs : List (DatasetConfig × StageOracle))
    (st' : RunState) (p : DatasetConfig × StageOracle)
    (hnd : (cfgs.map (fun q => q.1.identifier)).Nodup)
    (hrun : _generate_cubes (initRun σ) cfgs = .ok st')
    (hp : p ∈ cfgs) :
    (statusesOf (eventsFor p.1.identifier st'.events) = [GeneratorStatus.stopped]
      ∨ statusesOf (eventsFor p.1.identifier st'.events)
          = [GeneratorStatus.started, GeneratorStatus.stopped]
      ∨ statusesOf (eventsFor p.1.identifier st'.events)
          = [GeneratorStatus.started, GeneratorStatus.failed])
    ∧ (statusesOf (eventsFor p.1.identifier st'.events)).countP
        (fun s => s == GeneratorStatus.stopped || s == GeneratorStatus.failed) = 1
    ∧ ((st'.states p.1.identifier).status = some GeneratorStatus.stopped
        ∨ (st'.states p.1.identifier).status = some GeneratorStatus.failed) := by
  obtain ⟨tail, hev, hstates, hblocks⟩ := run_ok_blocks cfgs (initRun σ) st' hrun
  have hevFor : eventsFor p.1.identifier st'.events = eventsFor p.1.identifier tail := by
    rw [hev]
    rfl
  have hshape := blocks_eventsFor cfgs tail p hblocks hnd hp
  refine ⟨?_, ?_, ?_⟩
  · rw [hevFor]
    exact shape_statuses hshape
  · rw [hevFor]
    exact shape_terminal_count hshape
  · simp only [hstates]
    have hfilter := applyEvents_filter ((initRun σ).states p.1.identifier) tail
    rw [show ((initRun σ).states p.1.identifier).identifier = p.1.identifier from rfl]
      at hfilter
    rw [hfilter]
    exact shape_final_status _ rfl hshape

theorem c8_state_machine_witness :
    (c8cfgs.map (fun q => q.1.identifier)).Nodup
    ∧ ((statusesOf (eventsFor cfgA.identifier
          (_generate_cubes (initRun []) c8cfgs).state.events) = [GeneratorStatus.stopped]
        ∨ statusesOf (eventsFor cfgA.identifier
            (_generate_cubes (initRun []) c8cfgs).state.events)
          = [GeneratorStatus.started, GeneratorStatus.stopped]
        ∨ statusesOf (eventsFor cfgA.identifier
            (_generate_cubes (initRun []) c8cfgs).state.events)
          = [GeneratorStatus.started, GeneratorStatus.failed])
      ∧ (statusesOf (eventsFor cfgA.identifier
            (_generate_cubes (initRun []) c8cfgs).state.events)).countP
          (fun s => s == GeneratorStatus.stopped || s == GeneratorStatus.failed) = 1
      ∧ (((_generate_cubes (initRun []) c8cfgs).state.states cfgA.identifier).status
            = some GeneratorStatus.stopped
        ∨ ((_generate_cubes (initRun []) c8cfgs).state.states cfgA.identifier).status
            = some GeneratorStatus.failed)) :=
  ⟨by decide,
   c8_state_machine [] c8cfgs ((_generate_cubes (initRun []) c8cfgs).state)
     (cfgA, okOracle) (by decide) rfl (List.mem_cons_self _ _)⟩

end MS
